import Mathlib

/-!
Verification of the Code2Flow orchestration pipeline
(`thisworks.py`, `apicodenew2.py`) against its specification.

Source code is shallowly embedded: pure Python functions become Lean
functions over `String` / `List`; the external collaborators (the
tree-sitter parse, the LLM call) are passed in as parameters; mutation of
module-level globals and the session dictionary becomes explicit state
passing; Python exceptions become `Except`.
-/

set_option maxRecDepth 100000


/-- Equality of `Except` results is decidable when both components'
equalities are, so concrete endpoint outcomes can be evaluated. -/
instance {e a : Type} [DecidableEq e] [DecidableEq a] :
    DecidableEq (Except e a) := fun x y =>
  match x, y with
  | .ok u, .ok v =>
    if h : u = v then isTrue (by rw [h]) else isFalse (by simp [h])
  | .error u, .error v =>
    if h : u = v then isTrue (by rw [h]) else isFalse (by simp [h])
  | .ok _, .error _ => isFalse (by simp)
  | .error _, .ok _ => isFalse (by simp)

/-- Scanning loop of Python `str.count` for a non-empty pattern
`c0 :: ctail`: each step either skips one character or, on a match,
skips the whole pattern (non-overlapping).  `fuel` bounds the number of
steps structurally; started at the list's length it never runs out,
since every step consumes at least one character. -/
def strCountAux (c0 : Char) (ctail : List Char) : Nat → List Char → Nat
  | 0, _ => 0
  | _, [] => 0
  | fuel + 1, c :: rest =>
    if (c0 :: ctail).isPrefixOf (c :: rest) then
      1 + strCountAux c0 ctail fuel (rest.drop ctail.length)
    else
      strCountAux c0 ctail fuel rest

/-- Python `str.count(sub)` for a non-empty pattern `c0 :: ctail`:
the number of non-overlapping occurrences, scanning left to right. -/
def strCount (c0 : Char) (ctail : List Char) (s : List Char) : Nat :=
  strCountAux c0 ctail s.length s

/-- Python `s.count(sub)` (`"".count` counts `len(s)+1` empty positions,
as in Python; the patterns used by the source are all non-empty). -/
def pyCount (sub s : String) : Nat :=
  match sub.data with
  | [] => s.data.length + 1
  | c :: cs => strCount c cs s.data

/-- `FunctionInfo.calculate_complexity` (thisworks.py lines 73-82):
`1 + code.count('if ') + code.count('elif ') + code.count('for ')
   + code.count('while ') + code.count('and ') + code.count('or ')`. -/
def calculate_complexity (code : String) : Nat :=
  1 + pyCount "if " code + pyCount "elif " code + pyCount "for " code
    + pyCount "while " code + pyCount "and " code + pyCount "or " code

/-- `FunctionInfo` (thisworks.py lines 62-71).  The `complexity` attribute
is set at construction to `calculate_complexity code`, so it is modelled
as the derived function `FunctionInfo.complexity` below. -/
structure FunctionInfo where
  name : String
  start_line : Nat
  end_line : Nat
  code : String
  has_loops : Bool
  has_conditionals : Bool
  calls : List String
deriving DecidableEq

/-- `self.complexity = self.calculate_complexity()` (thisworks.py line 71). -/
def FunctionInfo.complexity (f : FunctionInfo) : Nat :=
  calculate_complexity f.code

/-- The dictionary returned by `analyze_code_structure`
(thisworks.py lines 156-161).  The parse-tree walk that fills it uses the
external tree-sitter library, so the report is taken as an input where
needed. -/
structure StructureReport where
  functions : List FunctionInfo
  main_code : List String
  total_lines : Nat
  function_count : Nat
deriving DecidableEq

/-- The chunk dictionaries built by `create_chunks` (thisworks.py lines
167-203): a tagged variant over the `'type'` key, carrying exactly the
keys the source stores for that variant. -/
inductive Chunk
  | full (code : String) (name : String) (complexity : Nat)
  | function (code : String) (name : String) (complexity : Nat)
      (calls : List String) (has_loops : Bool) (has_conditionals : Bool)
  | main (code : String) (name : String) (complexity : Nat)
deriving DecidableEq

def Chunk.name : Chunk → String
  | .full _ n _ => n
  | .function _ n _ _ _ _ => n
  | .main _ n _ => n

def Chunk.complexity : Chunk → Nat
  | .full _ _ c => c
  | .function _ _ c _ _ _ => c
  | .main _ _ c => c

def Chunk.code : Chunk → String
  | .full c _ _ => c
  | .function c _ _ _ _ _ => c
  | .main c _ _ => c

/-- `create_chunks(structure, code, max_chunk_size=500)` (thisworks.py
lines 167-203).  The Python `for` loop appending per-function chunks is a
left fold over `structure['functions']`. -/
def create_chunks (st : StructureReport) (code : String)
    (max_chunk_size : Nat := 500) : List Chunk :=
  if st.total_lines ≤ max_chunk_size then
    [Chunk.full code "Main Flow" ((st.functions.map FunctionInfo.complexity).sum)]
  else
    let chunks := st.functions.foldl
      (fun acc func =>
        acc ++ [Chunk.function func.code func.name func.complexity
                  func.calls func.has_loops func.has_conditionals])
      []
    if st.main_code ≠ [] then
      chunks ++ [Chunk.main (String.intercalate "\n" st.main_code) "Main Execution" 1]
    else
      chunks

/-- The six keyword-plus-trailing-space substrings counted by
`calculate_complexity`. -/
def keywordPatterns : List String := ["if ", "elif ", "for ", "while ", "and ", "or "]

/-- The keyword set named by the specification. -/
def keywordTokens : List String := ["if", "elif", "for", "while", "and", "or"]

/-- Splits a character list into its maximal whitespace-free runs;
`cur` accumulates the run in progress (reversed). -/
def wsTokensAux : List Char → List Char → List (List Char)
  | cur, [] => if cur.isEmpty then [] else [cur.reverse]
  | cur, c :: rest =>
    if c.isWhitespace then
      if cur.isEmpty then wsTokensAux [] rest
      else cur.reverse :: wsTokensAux [] rest
    else
      wsTokensAux (c :: cur) rest

/-- Modelled from the spec: "add 1 for each substring occurrence
(non-overlapping, case-sensitive, whitespace-bounded) of each keyword" —
a whitespace-bounded occurrence of a keyword is a whitespace-delimited
token equal to it. -/
def spec_complexity (s : String) : Nat :=
  1 + ((wsTokensAux [] s.data).filter
        (fun t => (keywordTokens.map String.data).contains t)).length

/-- Python `s.split('\n')` — the loop over characters, with `cur` holding
the piece in progress (reversed). -/
def pySplitNlAux : List Char → List Char → List String
  | cur, [] => [String.mk cur.reverse]
  | cur, c :: rest =>
    if c = '\n' then String.mk cur.reverse :: pySplitNlAux [] rest
    else pySplitNlAux (c :: cur) rest

/-- Python `s.split('\n')`. -/
def pySplitNl (s : String) : List String := pySplitNlAux [] s.data

/-- Python `s.strip()` on a character list: remove leading and trailing
whitespace. -/
def pyStripL (l : List Char) : List Char :=
  ((l.dropWhile Char.isWhitespace).reverse.dropWhile Char.isWhitespace).reverse

/-- Python `s.strip()`. -/
def pyStrip (s : String) : String := String.mk (pyStripL s.data)

/-- Python `s.startswith(p)`. -/
def pyStartsWith (s p : String) : Bool := p.data.isPrefixOf s.data

/-- The fragment-line filter of `combine_flowcharts` (thisworks.py line
309): `[line for line in flowchart.split('\n') if line.strip() and not
line.strip().startswith(('graph', 'flowchart'))]`. -/
def keptLines (flowchart : String) : List String :=
  (pySplitNl flowchart).filter (fun line =>
    !(pyStrip line).data.isEmpty
      && !(pyStartsWith (pyStrip line) "graph")
      && !(pyStartsWith (pyStrip line) "flowchart"))

/-- `combine_flowcharts(chunk_flowcharts, structure)` (thisworks.py lines
294-323).  The Python function receives the whole `structure` dict and
reads only `structure['chunks']`, passed here directly.  Inside the loop
the source also computes `chunk_name = chunk['name'].replace(' ', '_')`
but never uses it: the emitted subgraph label is `chunk['name']`
verbatim.  For `len(chunk_flowcharts) == 0` Python's `str(len - 1)`
prints `-1`, hence the `Int` subtraction in the final line. -/
def combine_flowcharts (chunk_flowcharts : List String)
    (structure_chunks : List Chunk) : String :=
  if chunk_flowcharts.length = 1 then
    chunk_flowcharts.headD ""
  else
    let lines := ["graph TD", "    START([Program Start])"]
    let lines := (List.enum (structure_chunks.zip chunk_flowcharts)).foldl
      (fun acc p =>
        ((acc
          ++ ["    subgraph SUB" ++ (toString p.1 ++ ("[" ++ (p.2.1.name ++ "]")))])
          ++ (keptLines p.2.2).map (fun line => "    " ++ line))
          ++ ["    end"])
      lines
    let lines := lines ++ ["    START --> SUB0"]
    let lines := lines ++ (List.range (chunk_flowcharts.length - 1)).map
      (fun i => "    SUB" ++ (toString i ++ (" --> SUB" ++ toString (i + 1))))
    let lines := lines
      ++ ["    SUB" ++ (toString ((chunk_flowcharts.length : Int) - 1)
            ++ " --> END([Program End])")]
    String.intercalate "\n" lines

/-- One emitted subgraph block: header line, the fragment's kept lines
indented one level, closing `end`. -/
def subgraphBlock (i : Nat) (chunk : Chunk) (flowchart : String) : List String :=
  ("    subgraph SUB" ++ (toString i ++ ("[" ++ (chunk.name ++ "]"))))
    :: ((keptLines flowchart).map (fun line => "    " ++ line) ++ ["    end"])

/-- The sequence of subgraph blocks, one per chunk/fragment pair in input
order. -/
def subgraphSection (chunks : List Chunk) (fs : List String) : List String :=
  (List.enum (chunks.zip fs)).flatMap (fun p => subgraphBlock p.1 p.2.1 p.2.2)

/-- The linear chain of connecting edges emitted after the subgraphs:
start node to the first subgraph, each subgraph to the next, last
subgraph to the end node. -/
def chainEdges (n : Nat) : List String :=
  "    START --> SUB0"
    :: ((List.range (n - 1)).map
          (fun i => "    SUB" ++ (toString i ++ (" --> SUB" ++ toString (i + 1))))
        ++ ["    SUB" ++ (toString ((n : Int) - 1) ++ " --> END([Program End])")])

/-- A line opening one of the combiner's own subgraph blocks. -/
def isSubgraphHeader (l : String) : Bool :=
  l.data.take 16 == "    subgraph SUB".data

/-- Modelled from the spec: the subgraph block's name is "derived from the
corresponding chunk's display name with spaces replaced". -/
def spec_subgraphHeader (i : Nat) (name : String) : String :=
  "    subgraph SUB" ++ (toString i ++ ("["
    ++ (String.mk (name.data.map (fun c => if c = ' ' then '_' else c)) ++ "]")))

/-- Python `s.find(sub)`: index of the first occurrence (`None` plays the
role of Python's `-1`). -/
def findSub (pat : List Char) : List Char → Option Nat
  | [] => if pat.isPrefixOf ([] : List Char) then some 0 else none
  | c :: rest =>
    if pat.isPrefixOf (c :: rest) then some 0
    else (findSub pat rest).map (· + 1)

/-- Post-processing of the LLM response inside
`generate_flowchart_for_chunk` (thisworks.py lines 270-288): strip,
extract the first ```mermaid fenced block if present, else the first
generic fenced block, then prepend `graph TD` unless the text already
starts with a recognized directive, and strip again.
`result.find(pat, start)` is `findSub` on the dropped list shifted by
`start`, and `result[start:stop]` is drop-then-take. -/
def postprocess_llm_response (content : String) : String :=
  let result := pyStripL content.data
  let result :=
    match findSub "```mermaid".data result with
    | some idx =>
      let start := idx + 10
      match (findSub "```".data (result.drop start)).map (· + start) with
      | some stop => pyStripL ((result.drop start).take (stop - start))
      | none => result
    | none =>
      match findSub "```".data result with
      | some idx =>
        let start := idx + 3
        match (findSub "```".data (result.drop start)).map (· + start) with
        | some stop => pyStripL ((result.drop start).take (stop - start))
        | none => result
      | none => result
  let result :=
    if !("graph TD".data.isPrefixOf result)
        && !("flowchart TD".data.isPrefixOf result) then
      "graph TD\n".data ++ result
    else result
  String.mk (pyStripL result)

/-- `generate_flowchart_for_chunk(chunk, chunk_index, total_chunks)`
(thisworks.py lines 209-292).  The prompt assembled from the chunk
metadata is consumed only by the external LLM; the outcome of
`llm.invoke(prompt).content` is abstracted as `llmResult`.  A successful
call runs the pure post-processing; any failure is caught and the
placeholder error diagram labeled with the chunk name is returned. -/
def generate_flowchart_for_chunk (llmResult : Except String String)
    (chunk : Chunk) (chunk_index total_chunks : Nat) : String :=
  match llmResult with
  | .ok content => postprocess_llm_response content
  | .error _ => "graph TD\n    ERR[Error: " ++ (chunk.name ++ "]")

/-- The URL-safe base64 alphabet used by Python's
`base64.urlsafe_b64encode`. -/
def b64Alphabet : List Char :=
  "ABCDEFGHIJKLMNOPQRSTUVWXYZabcdefghijklmnopqrstuvwxyz0123456789-_".data

/-- The alphabet character for a 6-bit value. -/
def b64Char (n : Nat) : Char := b64Alphabet.getD n 'A'

/-- The 6-bit value of an alphabet character. -/
def b64Val (c : Char) : Option Nat := b64Alphabet.findIdx? (fun x => x == c)

/-- URL-safe base64 encoding of a byte sequence, with `=` padding:
`base64.urlsafe_b64encode`. -/
def b64Encode : List Nat → List Char
  | [] => []
  | [a] => [b64Char (a / 4), b64Char (a % 4 * 16), '=', '=']
  | [a, b] =>
    [b64Char (a / 4), b64Char (a % 4 * 16 + b / 16), b64Char (b % 16 * 4), '=']
  | a :: b :: c :: rest =>
    b64Char (a / 4) :: b64Char (a % 4 * 16 + b / 16)
      :: b64Char (b % 16 * 4 + c / 64) :: b64Char (c % 64) :: b64Encode rest

/-- URL-safe base64 decoding: quads of alphabet characters, the final
quad optionally padded. -/
def b64Decode : List Char → Option (List Nat)
  | [] => some []
  | c1 :: c2 :: c3 :: c4 :: rest =>
    match b64Val c1, b64Val c2 with
    | some v1, some v2 =>
      if c3 = '=' then
        if c4 = '=' ∧ rest = [] then some [v1 * 4 + v2 / 16] else none
      else
        match b64Val c3 with
        | some v3 =>
          if c4 = '=' then
            if rest = [] then some [v1 * 4 + v2 / 16, v2 % 16 * 16 + v3 / 4]
            else none
          else
            match b64Val c4, b64Decode rest with
            | some v4, some bs =>
              some ((v1 * 4 + v2 / 16) :: (v2 % 16 * 16 + v3 / 4)
                :: (v3 % 4 * 64 + v4) :: bs)
            | _, _ => none
        | none => none
    | _, _ => none
  | _ => none

/-- UTF-8 encoding of one character: `str.encode('utf-8')`, per
character. -/
def utf8EncodeCharBytes (c : Char) : List Nat :=
  let n := c.toNat
  if n < 128 then [n]
  else if n < 2048 then [192 + n / 64, 128 + n % 64]
  else if n < 65536 then [224 + n / 4096, 128 + n / 64 % 64, 128 + n % 64]
  else [240 + n / 262144, 128 + n / 4096 % 64, 128 + n / 64 % 64, 128 + n % 64]

/-- `mermaid_code.encode('utf-8')`. -/
def utf8Bytes (s : String) : List Nat := s.data.flatMap utf8EncodeCharBytes

/-- Renderer (thisworks.py lines 334-335, and the identical computation
at apicodenew2.py lines 390-391):
`encoded = base64.urlsafe_b64encode(mermaid_code.encode('utf-8')).decode('utf-8')`. -/
def mermaid_encoded (mermaid_code : String) : String :=
  String.mk (b64Encode (utf8Bytes mermaid_code))

/-- The rendering-service URL `https://mermaid.ink/svg/{encoded}`. -/
def mermaid_svg_url (mermaid_code : String) : String :=
  "https://mermaid.ink/svg/" ++ mermaid_encoded mermaid_code

/-- One entry of `code_storage` (apicodenew2.py lines 215-218): the
submitted code and the chosen language selector. -/
structure SessionData where
  code : String
  language : String
deriving DecidableEq

/-- `code_storage: Dict[str, Dict[str, str]]` (apicodenew2.py line 64),
modelled as an insertion-ordered association list with unique keys, the
way a Python dict behaves. -/
abbrev Store := List (String × SessionData)

/-- Python dict assignment `code_storage[k] = v`: overwrite in place if
the key exists, else append. -/
def storeSet : Store → String → SessionData → Store
  | [], sid, d => [(sid, d)]
  | (k, v) :: rest, sid, d =>
    if k = sid then (k, d) :: rest else (k, v) :: storeSet rest sid d

/-- Python `del code_storage[k]`. -/
def storeDelete (s : Store) (sid : String) : Store :=
  s.filter (fun kv => kv.1 != sid)

/-- `fastapi.HTTPException(status_code, detail)` as surfaced to the
caller. -/
structure HTTPError where
  status : Nat
  detail : String
deriving DecidableEq

/-- Exceptions that can escape the handler bodies: an `HTTPException`
raised deliberately, or the `IndexError` from indexing an empty list. -/
inductive PyErr
  | http (status : Nat) (detail : String)
  | indexError
deriving DecidableEq

/-- `str(e)` for the exceptions above (`str(HTTPException(s, d))` renders
status and detail). -/
def PyErr.message : PyErr → String
  | .http s d => toString s ++ ": " ++ d
  | .indexError => "list index out of range"

/-- Python `str.splitlines()` restricted to `\n` newlines (the only
separator relevant here): like `split('\n')` but with no empty final
piece for trailing newlines and no piece at all for empty text. -/
def pySplitlines (s : String) : List String :=
  if s = "" then []
  else
    let parts := pySplitNl s
    if parts.getLast? = some "" then parts.dropLast else parts

/-- Response of `POST /submit-code` (apicodenew2.py lines 220-226). -/
structure SubmitResponse where
  success : Bool
  session_id : String
  message : String
  code_length : Nat
  lines : Nat
deriving DecidableEq

/-- `POST /submit-code` (apicodenew2.py lines 201-229).  The fresh
`uuid.uuid4()` identifier is passed in as `session_id`.  The source's
`try` wraps both the empty-code guard and the storage write, and its
blanket `except Exception` — which catches the deliberately raised
`HTTPException(400)` too, since `HTTPException` subclasses `Exception`
and this handler, unlike `/generate`'s, has no `except HTTPException:
raise` arm — rewraps that 400 into a 500. -/
def submit_code (store : Store) (session_id : String) (code : String) :
    Except HTTPError (SubmitResponse × Store) :=
  let body : Except PyErr (SubmitResponse × Store) :=
    if code = "" ∨ pyStrip code = "" then
      .error (.http 400 "Code cannot be empty")
    else
      .ok ({ success := true, session_id := session_id,
             message := "Code submitted successfully",
             code_length := code.length,
             lines := (pySplitlines code).length },
           storeSet store session_id ⟨code, "auto"⟩)
  match body with
  | .ok r => .ok r
  | .error e => .error ⟨500, "Error submitting code: " ++ e.message⟩

/-- The fixed allowed language set (apicodenew2.py line 242). -/
def valid_languages : List String := ["auto", "python", "javascript", "c"]

/-- Response of `POST /set-language/{session_id}` (lines 251-256). -/
structure SetLanguageResponse where
  success : Bool
  session_id : String
  language : String
  message : String
deriving DecidableEq

/-- `POST /set-language/{session_id}` (apicodenew2.py lines 231-256). -/
def set_language (store : Store) (session_id : String) (language : String) :
    Except HTTPError (SetLanguageResponse × Store) :=
  match List.lookup session_id store with
  | none => .error ⟨404, "Session not found"⟩
  | some data =>
    if language ∉ valid_languages then
      .error ⟨400, "Invalid language. Choose from: auto, python, javascript, c"⟩
    else
      .ok ({ success := true, session_id := session_id, language := language,
             message := "Language set successfully" },
           storeSet store session_id { data with language := language })

/-- The session store's read: the guard-then-index pattern
`if session_id not in code_storage: raise HTTPException(404, ...);
code_storage[session_id]` shared by `/generate-flowchart/{session_id}`
(apicodenew2.py lines 265-270) and `GET /session/{session_id}` (lines
291-294). -/
def read_session (store : Store) (session_id : String) :
    Except HTTPError SessionData :=
  match List.lookup session_id store with
  | none => .error ⟨404, "Session not found"⟩
  | some data => .ok data

/-- Response of `GET /session/{session_id}` (lines 296-302). -/
structure GetSessionResponse where
  session_id : String
  has_code : Bool
  language : String
  code_length : Nat
  lines : Nat
deriving DecidableEq

/-- `GET /session/{session_id}` (apicodenew2.py lines 286-302). -/
def get_session (store : Store) (session_id : String) :
    Except HTTPError GetSessionResponse :=
  match List.lookup session_id store with
  | none => .error ⟨404, "Session not found"⟩
  | some data =>
    .ok { session_id := session_id,
          has_code := data.code != "",
          language := data.language,
          code_length := data.code.length,
          lines := (pySplitlines data.code).length }

/-- Response of `DELETE /session/{session_id}` (lines 454-457). -/
structure DeleteResponse where
  success : Bool
  message : String
deriving DecidableEq

/-- `DELETE /session/{session_id}` (apicodenew2.py lines 446-457). -/
def delete_session (store : Store) (session_id : String) :
    Except HTTPError (DeleteResponse × Store) :=
  match List.lookup session_id store with
  | none => .error ⟨404, "Session not found"⟩
  | some _ =>
    .ok ({ success := true, message := "Session deleted successfully" },
         storeDelete store session_id)

/-- The module-level globals `current_svg_url` and `current_mermaid_code`
of apicodenew2.py (lines 67-68), threaded explicitly. -/
structure Globals where
  current_svg_url : String
  current_mermaid_code : String
deriving DecidableEq

/-- Their initial values at process start: both empty. -/
def initialGlobals : Globals := ⟨"", ""⟩

/-- Python `sub in s`. -/
def strContains (s sub : String) : Bool := (findSub sub.data s.data).isSome

/-- `detect_language(code)` (thisworks.py lines 52-60). -/
def detect_language (code : String) : String :=
  let s := pyStrip code
  if pyStartsWith s "def " || pyStartsWith s "class " || pyStartsWith s "import "
      || pyStartsWith s "from " || pyStartsWith s "async " then "python"
  else if pyStartsWith s "#include" || strContains s " main(" then "c"
  else if strContains s "function " || strContains s "const "
      || strContains s "=>" || strContains s "class " then "javascript"
  else "python"

/-- The `analysis` dictionary (apicodenew2.py lines 402-408). -/
structure Analysis where
  total_complexity : Nat
  function_count : Nat
  total_lines : Nat
  chunks : Nat
  language : String
deriving DecidableEq

/-- The dictionary returned by `process_code_internal` (lines 426-433).
The constant `success` flag, the HTML wrapper around the URL and the
human-readable status trace are presentational and omitted; the audit-log
write (lines 410-424) is file IO, caught on failure, and out of scope. -/
structure ProcessResult where
  mermaid_code : String
  svg_url : String
  analysis : Analysis
deriving DecidableEq

/-- `process_code_internal(code, language)` (apicodenew2.py lines
341-433).  The external collaborators are parameters: `analyze` stands
for `analyze_code_structure` (a tree-sitter parse walk) and `llm i` for
the outcome of the i-th `llm.invoke` call.  Steps: resolve language,
analyze, chunk, generate one fragment per chunk, then either combine
(more than one chunk) or take `chunk_flowcharts[0]` — an `IndexError`
when the chunk list is empty — then set the module globals and build the
result.  (`mermaid_to_svg` also assigns thisworks.py's own
`current_svg_url`, a different module's global never read by this API;
the URL stored here is the one recomputed at lines 390-391.) -/
def process_code_internal (analyze : String → String → StructureReport)
    (llm : Nat → Except String String) (g : Globals)
    (code language : String) : Except PyErr (ProcessResult × Globals) :=
  let lang := if language ≠ "auto" then language else detect_language code
  let st := analyze code lang
  let chunks := create_chunks st code
  let chunk_flowcharts := (List.enum chunks).map
    (fun p => generate_flowchart_for_chunk (llm p.1) p.2 p.1 chunks.length)
  let finalRes : Except PyErr String :=
    if chunks.length > 1 then
      .ok (combine_flowcharts chunk_flowcharts chunks)
    else
      match chunk_flowcharts with
      | [] => .error .indexError
      | f :: _ => .ok f
  match finalRes with
  | .error e => .error e
  | .ok final_mermaid =>
    let url := mermaid_svg_url final_mermaid
    .ok ({ mermaid_code := final_mermaid,
           svg_url := url,
           analysis := { total_complexity := (chunks.map Chunk.complexity).sum,
                         function_count := st.function_count,
                         total_lines := st.total_lines,
                         chunks := chunks.length,
                         language := lang } },
         { g with current_mermaid_code := final_mermaid,
                  current_svg_url := url })

/-- The `FlowchartResponse` payload (lines 50-57), presentational fields
omitted as in `ProcessResult`. -/
structure FlowchartResponse where
  mermaid_code : String
  svg_url : String
  analysis : Analysis
  session_id : String
deriving DecidableEq

/-- `POST /generate` (apicodenew2.py lines 308-335): empty-code guard,
then the shared processing; `except HTTPException: raise` lets the 400
through, any other exception becomes a 500. -/
def generate_flowchart (analyze : String → String → StructureReport)
    (llm : Nat → Except String String) (g : Globals)
    (code language : String) : Except HTTPError (FlowchartResponse × Globals) :=
  let body : Except PyErr (FlowchartResponse × Globals) :=
    if code = "" ∨ pyStrip code = "" then
      .error (.http 400 "Code cannot be empty")
    else
      match process_code_internal analyze llm g code language with
      | .error e => .error e
      | .ok (r, g') =>
        .ok ({ mermaid_code := r.mermaid_code, svg_url := r.svg_url,
               analysis := r.analysis, session_id := "direct" }, g')
  match body with
  | .ok r => .ok r
  | .error (.http s d) => .error ⟨s, d⟩
  | .error e => .error ⟨500, "Error processing code: " ++ e.message⟩

/-- `POST /generate-flowchart/{session_id}` (apicodenew2.py lines
258-284): 404 guard on the session, then the shared processing; its
handler has no `except HTTPException` arm, so every exception from the
body becomes a 500. -/
def generate_flowchart_by_session (analyze : String → String → StructureReport)
    (llm : Nat → Except String String) (store : Store) (g : Globals)
    (session_id : String) : Except HTTPError (FlowchartResponse × Globals) :=
  match List.lookup session_id store with
  | none => .error ⟨404, "Session not found. Submit code first."⟩
  | some data =>
    match process_code_internal analyze llm g data.code data.language with
    | .error e => .error ⟨500, "Error generating flowchart: " ++ e.message⟩
    | .ok (r, g') =>
      .ok ({ mermaid_code := r.mermaid_code, svg_url := r.svg_url,
             analysis := r.analysis, session_id := session_id }, g')

/-- Response of `GET /current` (lines 441-444). -/
structure CurrentResponse where
  svg_url : String
  mermaid_code : String
deriving DecidableEq

/-- `GET /current` (apicodenew2.py lines 435-444). -/
def get_current (g : Globals) : Except HTTPError CurrentResponse :=
  if g.current_svg_url = "" then
    .error ⟨404, "No flowchart generated yet"⟩
  else
    .ok ⟨g.current_svg_url, g.current_mermaid_code⟩

/-- A stand-in for `analyze_code_structure` reporting 501 lines, no
functions and no top-level snippets (e.g. 501 comment lines). -/
def analyzeStub501 : String → String → StructureReport :=
  fun _ _ => ⟨[], [], 501, 0⟩

/-- A stand-in for `analyze_code_structure` for a one-line submission
with no functions and no snippets. -/
def demoAnalyze : String → String → StructureReport :=
  fun _ _ => ⟨[], [], 1, 0⟩

/-- A stand-in LLM returning the fragment `graph TD` for every chunk. -/
def demoLlm : Nat → Except String String := fun _ => .ok "graph TD"

/-- Appending one element per list entry, as Python's `list.append` loop
does, builds the mapped list. -/
theorem foldl_append_singleton {α β : Type} (g : α → β) :
    ∀ (l : List α) (init : List β),
      l.foldl (fun acc x => acc ++ [g x]) init = init ++ l.map g := by
  intro l
  induction l with
  | nil => intro init; simp
  | cons x xs ih => intro init; simp [List.foldl_cons, ih]

/-- C1: with the default threshold of 500, `create_chunks` returns exactly
one full-submission chunk whose complexity is the sum of the extracted
functions' complexities when the reported total line count is at most the
threshold; otherwise it returns one per-function chunk per extracted
function, in extraction order, followed by exactly one aggregate chunk of
complexity 1 if and only if at least one top-level snippet was recorded. -/
theorem create_chunks_plan (st : StructureReport) (code : String) :
    (st.total_lines ≤ 500 →
      create_chunks st code =
        [Chunk.full code "Main Flow"
          ((st.functions.map FunctionInfo.complexity).sum)]) ∧
    (500 < st.total_lines →
      create_chunks st code =
        st.functions.map (fun f =>
          Chunk.function f.code f.name f.complexity
            f.calls f.has_loops f.has_conditionals)
        ++ (if st.main_code = [] then []
            else [Chunk.main (String.intercalate "\n" st.main_code)
                    "Main Execution" 1])) := by
  constructor
  · intro h
    simp [create_chunks, h]
  · intro h
    have h' : ¬ st.total_lines ≤ 500 := by omega
    simp only [create_chunks, if_neg h']
    rw [foldl_append_singleton]
    by_cases hm : st.main_code = []
    · simp [hm]
    · simp [hm]

/-- Witness for C1: both branches of the chunk planner at concrete inputs. -/
theorem create_chunks_plan_witness :
    ((10 : Nat) ≤ 500 ∧
      create_chunks ⟨[⟨"foo", 0, 1, "if x", false, false, []⟩], ["x = 1"], 10, 1⟩ "c"
        = [Chunk.full "c" "Main Flow" 2]) ∧
    (500 < (501 : Nat) ∧
      create_chunks ⟨[⟨"foo", 0, 1, "if x", false, false, []⟩], ["x = 1"], 501, 1⟩ "c"
        = [Chunk.function "if x" "foo" 2 [] false false,
           Chunk.main "x = 1" "Main Execution" 1]) :=
  ⟨⟨by decide,
    ((create_chunks_plan ⟨[⟨"foo", 0, 1, "if x", false, false, []⟩], ["x = 1"], 10, 1⟩
        "c").1 (by decide)).trans (by decide)⟩,
   ⟨by decide,
    ((create_chunks_plan ⟨[⟨"foo", 0, 1, "if x", false, false, []⟩], ["x = 1"], 501, 1⟩
        "c").2 (by decide)).trans (by decide)⟩⟩

/-- C2 counterexample: the complexity estimate is not a count of
whitespace-bounded keyword occurrences.  `"elif "` holds a single
whitespace-bounded keyword (`elif`), so the claimed formula yields 2, but
the code also counts the `"if "` suffix inside `"elif "` and returns 3;
likewise `"for "` is counted both as `for` and as the embedded `"or "`. -/
theorem calculate_complexity_not_whitespace_bounded :
    calculate_complexity "elif " = 3 ∧ spec_complexity "elif " = 2 ∧
    calculate_complexity "for " = 3 ∧ spec_complexity "for " = 2 := by
  refine ⟨by decide, ?_, by decide, ?_⟩ <;> decide

/-- C2 amended: the estimate equals 1 plus, for each keyword in
{if, elif, for, while, and, or}, the number of non-overlapping,
case-sensitive occurrences of that keyword followed by a single space —
with no left whitespace boundary required, so occurrences embedded in
other keywords (the `if ` in `elif `, the `or ` in `for `) are counted
too.  It returns exactly 1 for text containing none of these
keyword-plus-space substrings and is monotonically non-decreasing in the
per-keyword occurrence counts. -/
theorem calculate_complexity_amended (s t : String) :
    calculate_complexity s = 1 + (keywordPatterns.map (fun k => pyCount k s)).sum ∧
    ((∀ k ∈ keywordPatterns, pyCount k s = 0) → calculate_complexity s = 1) ∧
    ((∀ k ∈ keywordPatterns, pyCount k s ≤ pyCount k t) →
      calculate_complexity s ≤ calculate_complexity t) := by
  refine ⟨?_, ?_, ?_⟩
  · simp [calculate_complexity, keywordPatterns]
    omega
  · intro h
    have h1 := h "if " (by simp [keywordPatterns])
    have h2 := h "elif " (by simp [keywordPatterns])
    have h3 := h "for " (by simp [keywordPatterns])
    have h4 := h "while " (by simp [keywordPatterns])
    have h5 := h "and " (by simp [keywordPatterns])
    have h6 := h "or " (by simp [keywordPatterns])
    simp [calculate_complexity, h1, h2, h3, h4, h5, h6]
  · intro h
    have h1 := h "if " (by simp [keywordPatterns])
    have h2 := h "elif " (by simp [keywordPatterns])
    have h3 := h "for " (by simp [keywordPatterns])
    have h4 := h "while " (by simp [keywordPatterns])
    have h5 := h "and " (by simp [keywordPatterns])
    have h6 := h "or " (by simp [keywordPatterns])
    simp only [calculate_complexity]
    omega

/-- Witness for C2's amended theorem at concrete inputs. -/
theorem calculate_complexity_amended_witness :
    ((∀ k ∈ keywordPatterns, pyCount k "hello" = 0) ∧
      calculate_complexity "hello" = 1) ∧
    ((∀ k ∈ keywordPatterns, pyCount k "hello" ≤ pyCount k "if a or b") ∧
      calculate_complexity "hello" ≤ calculate_complexity "if a or b") :=
  ⟨⟨by decide, (calculate_complexity_amended "hello" "x").2.1 (by decide)⟩,
   ⟨by decide, (calculate_complexity_amended "hello" "if a or b").2.2 (by decide)⟩⟩

/-- Folding appends of block lists is concatenation of the blocks. -/
theorem foldl_append_parts {α β : Type} (g : α → List β) :
    ∀ (l : List α) (init : List β),
      l.foldl (fun acc x => acc ++ g x) init = init ++ l.flatMap g := by
  intro l
  induction l with
  | nil => intro init; simp
  | cons x xs ih => intro init; simp [List.foldl_cons, ih]

/-- For more than one fragment (in fact whenever there is not exactly
one), the combiner's output is the directive line, the start node, the
subgraph blocks in input order, and the connecting-edge chain. -/
theorem combine_flowcharts_eq_template (fs : List String) (chunks : List Chunk)
    (h : fs.length ≠ 1) :
    combine_flowcharts fs chunks =
      String.intercalate "\n"
        (["graph TD", "    START([Program Start])"]
          ++ subgraphSection chunks fs ++ chainEdges fs.length) := by
  unfold combine_flowcharts
  rw [if_neg h]
  have hstep :
      (fun (acc : List String) (p : Nat × Chunk × String) =>
        ((acc
          ++ ["    subgraph SUB" ++ (toString p.1 ++ ("[" ++ (p.2.1.name ++ "]")))])
          ++ (keptLines p.2.2).map (fun line => "    " ++ line))
          ++ ["    end"])
      = fun acc p => acc ++ subgraphBlock p.1 p.2.1 p.2.2 := by
    funext acc p
    simp [subgraphBlock]
  simp only [hstep, foldl_append_parts]
  congr 1
  simp [subgraphSection, chainEdges]

/-- No line of the form `"    SUB" ++ t` is a subgraph header. -/
theorem isSubgraphHeader_chain (t : String) :
    isSubgraphHeader ("    SUB" ++ t) = false := by
  simp only [isSubgraphHeader, String.data_append]
  rw [List.take_append_eq_append_take,
    List.take_of_length_le (by decide : ("    SUB".data).length ≤ 16)]
  refine beq_eq_false_iff_ne.mpr ?_
  intro hEq
  have h7 := congrArg (List.take 7) hEq
  rw [List.take_left' (by decide : ("    SUB".data).length = 7)] at h7
  exact absurd h7 (by decide)

/-- Every line of the form `"    subgraph SUB" ++ t` is a subgraph
header. -/
theorem isSubgraphHeader_header (t : String) :
    isSubgraphHeader ("    subgraph SUB" ++ t) = true := by
  simp only [isSubgraphHeader, String.data_append]
  rw [List.take_left' (by decide : ("    subgraph SUB".data).length = 16)]
  exact beq_self_eq_true _

/-- The header lines of the subgraph section, in order: one per
chunk/fragment pair, provided no indented fragment line masquerades as a
header. -/
theorem subgraphSection_headers (ps : List (Nat × Chunk × String))
    (hbody : ∀ p ∈ ps, ∀ line ∈ keptLines p.2.2,
      isSubgraphHeader ("    " ++ line) = false) :
    (ps.flatMap (fun p => subgraphBlock p.1 p.2.1 p.2.2)).filter isSubgraphHeader
      = ps.map (fun p =>
          "    subgraph SUB" ++ (toString p.1 ++ ("[" ++ (p.2.1.name ++ "]")))) := by
  induction ps with
  | nil => rfl
  | cons p rest ih =>
    have hblock : (subgraphBlock p.1 p.2.1 p.2.2).filter isSubgraphHeader
        = ["    subgraph SUB" ++ (toString p.1 ++ ("[" ++ (p.2.1.name ++ "]")))] := by
      unfold subgraphBlock
      rw [List.filter_cons_of_pos (isSubgraphHeader_header _), List.filter_append]
      have hb : ((keptLines p.2.2).map (fun line => "    " ++ line)).filter
          isSubgraphHeader = [] := by
        rw [List.filter_eq_nil_iff]
        intro a ha
        rcases List.mem_map.mp ha with ⟨line, hline, rfl⟩
        simp [hbody p (List.mem_cons_self _ _) line hline]
      have hend : isSubgraphHeader "    end" = false := by decide
      rw [hb, List.filter_cons_of_neg (by simp [hend]), List.filter_nil,
        List.append_nil]
    rw [List.flatMap_cons, List.filter_append, hblock,
      ih (fun q hq => hbody q (List.mem_cons_of_mem _ hq)), List.map_cons]
    rfl

/-- The connecting-edge chain contains no subgraph headers. -/
theorem chainEdges_no_headers (n : Nat) :
    (chainEdges n).filter isSubgraphHeader = [] := by
  unfold chainEdges
  rw [List.filter_cons_of_neg (by decide), List.filter_append]
  have h1 : ((List.range (n - 1)).map
      (fun i => "    SUB" ++ (toString i ++ (" --> SUB" ++ toString (i + 1))))).filter
        isSubgraphHeader = [] := by
    rw [List.filter_eq_nil_iff]
    intro a ha
    rcases List.mem_map.mp ha with ⟨i, _, rfl⟩
    simp [isSubgraphHeader_chain]
  have h2 : (["    SUB" ++ (toString ((n : Int) - 1)
      ++ " --> END([Program End])")]).filter isSubgraphHeader = [] := by
    rw [List.filter_cons_of_neg (by simp [isSubgraphHeader_chain]), List.filter_nil]
  rw [h1, h2, List.append_nil]

/-- C3: given a single fragment the combiner returns it byte-for-byte
unchanged; given N > 1 fragments (with their matching chunk list) the
output is the directive and start lines, then exactly N subgraph blocks
in input order — their header lines are `subgraph SUB0 … subgraph
SUB(N-1)` in order, and nothing else in the output is a header line given
that no indented fragment line is one — followed by a linear chain of
N + 1 connecting edges: start to first subgraph, each subgraph to the
next, last subgraph to the end node. -/
theorem combine_flowcharts_spec (fs : List String) (chunks : List Chunk) :
    (∀ f, fs = [f] → combine_flowcharts fs chunks = f) ∧
    (2 ≤ fs.length → chunks.length = fs.length →
      (∀ p ∈ List.enum (chunks.zip fs), ∀ line ∈ keptLines p.2.2,
        isSubgraphHeader ("    " ++ line) = false) →
      combine_flowcharts fs chunks =
        String.intercalate "\n"
          (["graph TD", "    START([Program Start])"]
            ++ subgraphSection chunks fs ++ chainEdges fs.length) ∧
      (subgraphSection chunks fs).filter isSubgraphHeader
        = (List.enum (chunks.zip fs)).map (fun p =>
            "    subgraph SUB" ++ (toString p.1 ++ ("[" ++ (p.2.1.name ++ "]")))) ∧
      ((subgraphSection chunks fs).filter isSubgraphHeader).length = fs.length ∧
      (chainEdges fs.length).filter isSubgraphHeader = [] ∧
      (chainEdges fs.length).length = fs.length + 1) := by
  constructor
  · intro f hf
    subst hf
    rfl
  · intro h2 hlen hbody
    have hne : fs.length ≠ 1 := by omega
    have hhead := subgraphSection_headers (List.enum (chunks.zip fs)) hbody
    refine ⟨combine_flowcharts_eq_template fs chunks hne, hhead, ?_, ?_, ?_⟩
    · have hlength := congrArg List.length hhead
      rw [List.length_map, List.enum_length, List.length_zip, hlen, min_self]
        at hlength
      exact hlength
    · exact chainEdges_no_headers fs.length
    · unfold chainEdges
      rw [List.length_cons, List.length_append, List.length_map,
        List.length_range, List.length_cons, List.length_nil]
      omega

/-- Witness for C3: the combiner at one and at two concrete fragments. -/
theorem combine_flowcharts_spec_witness :
    combine_flowcharts ["graph TD\n    Z1[z]"] [Chunk.full "a" "A" 1]
      = "graph TD\n    Z1[z]" ∧
    (2 ≤ (["graph TD\n    X1[one]", "graph TD\n    Y1[two]"] : List String).length ∧
      combine_flowcharts ["graph TD\n    X1[one]", "graph TD\n    Y1[two]"]
          [Chunk.full "a" "A" 1, Chunk.full "b" "B" 1]
        = String.intercalate "\n"
            (["graph TD", "    START([Program Start])"]
              ++ subgraphSection [Chunk.full "a" "A" 1, Chunk.full "b" "B" 1]
                  ["graph TD\n    X1[one]", "graph TD\n    Y1[two]"]
              ++ chainEdges 2) ∧
      (chainEdges 2).length = 3) :=
  ⟨(combine_flowcharts_spec ["graph TD\n    Z1[z]"] [Chunk.full "a" "A" 1]).1
      "graph TD\n    Z1[z]" rfl,
   by decide,
   ((combine_flowcharts_spec ["graph TD\n    X1[one]", "graph TD\n    Y1[two]"]
      [Chunk.full "a" "A" 1, Chunk.full "b" "B" 1]).2
      (by decide) (by decide) (by decide)).1,
   ((combine_flowcharts_spec ["graph TD\n    X1[one]", "graph TD\n    Y1[two]"]
      [Chunk.full "a" "A" 1, Chunk.full "b" "B" 1]).2
      (by decide) (by decide) (by decide)).2.2.2.2⟩

/-- C7 counterexample: the source computes a space-replaced copy of the
chunk name but never uses it — the emitted subgraph label is the display
name verbatim.  For a chunk named `My Func` the output contains the
header `subgraph SUB0[My Func]`, not the spec's `subgraph SUB0[My_Func]`. -/
theorem combine_flowcharts_label_not_replaced :
    combine_flowcharts ["graph TD\n    A1[a]", "graph TD\n    B1[b]"]
        [Chunk.full "x" "My Func" 1, Chunk.main "y" "Main Execution" 1]
      = "graph TD\n    START([Program Start])\n    subgraph SUB0[My Func]\n        A1[a]\n    end\n    subgraph SUB1[Main Execution]\n        B1[b]\n    end\n    START --> SUB0\n    SUB0 --> SUB1\n    SUB1 --> END([Program End])" ∧
    spec_subgraphHeader 0 "My Func" = "    subgraph SUB0[My_Func]" ∧
    (subgraphSection
        [Chunk.full "x" "My Func" 1, Chunk.main "y" "Main Execution" 1]
        ["graph TD\n    A1[a]", "graph TD\n    B1[b]"]).filter isSubgraphHeader
      = ["    subgraph SUB0[My Func]", "    subgraph SUB1[Main Execution]"] ∧
    ("    subgraph SUB0[My Func]" : String) ≠ spec_subgraphHeader 0 "My Func" := by
  exact ⟨by decide, by decide, by decide, by decide⟩

/-- C7 amended: when combining N > 1 fragments (with their matching chunk
list), each emitted subgraph block is identified `SUB i` by ordinal and
labeled with the corresponding chunk's display name verbatim (the
space-replaced variant the source computes is unused), and the block
contains every line of that fragment that is non-blank and does not start,
after stripping, with a top-level directive keyword, indented one level
and re-emitted verbatim. -/
theorem combine_flowcharts_blocks (fs : List String) (chunks : List Chunk)
    (h2 : 2 ≤ fs.length) (hlen : chunks.length = fs.length) :
    combine_flowcharts fs chunks =
      String.intercalate "\n"
        (["graph TD", "    START([Program Start])"]
          ++ (List.enum (chunks.zip fs)).flatMap (fun p =>
              ("    subgraph SUB" ++ (toString p.1 ++ ("[" ++ (p.2.1.name ++ "]"))))
                :: ((keptLines p.2.2).map (fun line => "    " ++ line) ++ ["    end"]))
          ++ chainEdges fs.length) := by
  have hne : fs.length ≠ 1 := by omega
  exact combine_flowcharts_eq_template fs chunks hne

/-- C6: per-chunk diagram generation never propagates a failure of the
external text-generation call: for every chunk, index, total count and
failure, it returns the minimal single-node error diagram labeled with
the chunk's name (and on success it returns the pure post-processing of
the response, so no exception can escape in either case). -/
theorem generate_flowchart_for_chunk_spec (chunk : Chunk)
    (chunk_index total_chunks : Nat) (e : String) (content : String) :
    generate_flowchart_for_chunk (.error e) chunk chunk_index total_chunks
      = "graph TD\n    ERR[Error: " ++ (chunk.name ++ "]") ∧
    generate_flowchart_for_chunk (.ok content) chunk chunk_index total_chunks
      = postprocess_llm_response content :=
  ⟨rfl, rfl⟩

theorem b64Val_b64Char : ∀ n, n < 64 → b64Val (b64Char n) = some n := by decide

theorem b64Char_ne_pad : ∀ n, n < 64 → b64Char n ≠ '=' := by decide

/-- Decoding inverts encoding on byte sequences; `fuel` drives the
induction three bytes at a time. -/
theorem b64_roundtrip_aux :
    ∀ (fuel : Nat) (bs : List Nat), bs.length ≤ fuel →
      (∀ x ∈ bs, x < 256) → b64Decode (b64Encode bs) = some bs := by
  intro fuel
  induction fuel with
  | zero =>
    intro bs hlen _
    have hbs : bs = [] := List.eq_nil_of_length_eq_zero (by omega)
    subst hbs
    rfl
  | succ n ih =>
    intro bs hlen hb
    match bs with
    | [] => rfl
    | [a] =>
      have ha : a < 256 := hb a (by simp)
      have h1 := b64Val_b64Char (a / 4) (by omega)
      have h2 := b64Val_b64Char (a % 4 * 16) (by omega)
      simp [b64Encode, b64Decode, h1, h2]
      omega
    | [a, b] =>
      have ha : a < 256 := hb a (by simp)
      have hbb : b < 256 := hb b (by simp)
      have h1 := b64Val_b64Char (a / 4) (by omega)
      have h2 := b64Val_b64Char (a % 4 * 16 + b / 16) (by omega)
      have h3 := b64Val_b64Char (b % 16 * 4) (by omega)
      have hp := b64Char_ne_pad (b % 16 * 4) (by omega)
      simp [b64Encode, b64Decode, h1, h2, h3, if_neg hp]
      omega
    | a :: b :: c :: rest =>
      have ha : a < 256 := hb a (by simp)
      have hbb : b < 256 := hb b (by simp)
      have hc : c < 256 := hb c (by simp)
      have h1 := b64Val_b64Char (a / 4) (by omega)
      have h2 := b64Val_b64Char (a % 4 * 16 + b / 16) (by omega)
      have h3 := b64Val_b64Char (b % 16 * 4 + c / 64) (by omega)
      have h4 := b64Val_b64Char (c % 64) (by omega)
      have hp3 := b64Char_ne_pad (b % 16 * 4 + c / 64) (by omega)
      have hp4 := b64Char_ne_pad (c % 64) (by omega)
      have hrest : b64Decode (b64Encode rest) = some rest := by
        refine ih rest ?_ ?_
        · have := hlen
          simp only [List.length_cons] at this
          omega
        · intro x hx
          exact hb x (by simp [hx])
      simp [b64Encode, b64Decode, h1, h2, h3, h4, if_neg hp3, if_neg hp4,
        hrest]
      omega

/-- Round trip for every byte sequence. -/
theorem b64_roundtrip (bs : List Nat) (h : ∀ x ∈ bs, x < 256) :
    b64Decode (b64Encode bs) = some bs :=
  b64_roundtrip_aux bs.length bs le_rfl h

theorem utf8EncodeCharBytes_lt (c : Char) :
    ∀ x ∈ utf8EncodeCharBytes c, x < 256 := by
  have hv : c.val.toNat.isValidChar := c.valid
  have hn : c.toNat < 1114112 := by
    rcases hv with h | ⟨h1, h2⟩ <;> simp [Char.toNat] <;> omega
  intro x hx
  simp only [utf8EncodeCharBytes] at hx
  split at hx
  · simp at hx; omega
  · split at hx
    · simp at hx; rcases hx with rfl | rfl <;> omega
    · split at hx
      · simp at hx; rcases hx with rfl | rfl | rfl <;> omega
      · simp at hx; rcases hx with rfl | rfl | rfl | rfl <;> omega

theorem utf8Bytes_lt (s : String) : ∀ x ∈ utf8Bytes s, x < 256 := by
  intro x hx
  rcases List.mem_flatMap.mp hx with ⟨c, _, hxc⟩
  exact utf8EncodeCharBytes_lt c x hxc

/-- C8: the renderer's encoding is round-trippable — the returned URL is
the fixed service prefix followed by the payload, and URL-safe base64
decoding of that payload reproduces the diagram text's UTF-8 bytes
exactly. -/
theorem mermaid_url_roundtrip (mermaid_code : String) :
    (mermaid_svg_url mermaid_code).data
      = "https://mermaid.ink/svg/".data ++ (mermaid_encoded mermaid_code).data ∧
    b64Decode (mermaid_encoded mermaid_code).data
      = some (utf8Bytes mermaid_code) := by
  constructor
  · exact String.data_append _ _
  · exact b64_roundtrip _ (utf8Bytes_lt _)

/-- Witness for C7's amended theorem at a concrete two-fragment input. -/
theorem combine_flowcharts_blocks_witness :
    2 ≤ (["graph TD\n    M1[hi]", "graph TD\n    N1[bye]"] : List String).length ∧
    ([Chunk.function "c" "do work" 2 [] true false,
      Chunk.main "m" "Main Execution" 1] : List Chunk).length
      = (["graph TD\n    M1[hi]", "graph TD\n    N1[bye]"] : List String).length ∧
    combine_flowcharts ["graph TD\n    M1[hi]", "graph TD\n    N1[bye]"]
        [Chunk.function "c" "do work" 2 [] true false,
         Chunk.main "m" "Main Execution" 1]
      = "graph TD\n    START([Program Start])\n    subgraph SUB0[do work]\n        M1[hi]\n    end\n    subgraph SUB1[Main Execution]\n        N1[bye]\n    end\n    START --> SUB0\n    SUB0 --> SUB1\n    SUB1 --> END([Program End])" :=
  ⟨by decide, by decide,
   (combine_flowcharts_blocks ["graph TD\n    M1[hi]", "graph TD\n    N1[bye]"]
      [Chunk.function "c" "do work" 2 [] true false,
       Chunk.main "m" "Main Execution" 1]
      (by decide) (by decide)).trans (by decide)⟩

/-- A key just written is read back. -/
theorem lookup_storeSet_self (s : Store) (sid : String) (d : SessionData) :
    List.lookup sid (storeSet s sid d) = some d := by
  induction s with
  | nil => simp [storeSet, List.lookup]
  | cons kv rest ih =>
    by_cases hk : kv.1 = sid
    · simp [storeSet, hk, List.lookup]
    · have hbeq : (sid == kv.1) = false := beq_eq_false_iff_ne.mpr (Ne.symm hk)
      simp only [storeSet, if_neg hk, List.lookup, hbeq]
      exact ih

/-- A deleted key is gone. -/
theorem lookup_storeDelete_self (s : Store) (sid : String) :
    List.lookup sid (storeDelete s sid) = none := by
  induction s with
  | nil => rfl
  | cons kv rest ih =>
    by_cases hk : kv.1 = sid
    · have hbne : (kv.1 != sid) = false := by simp [hk]
      simpa [storeDelete, List.filter, hbne] using ih
    · have hbne : (kv.1 != sid) = true := by simp [hk]
      have hbeq : (sid == kv.1) = false := beq_eq_false_iff_ne.mpr (Ne.symm hk)
      simp only [storeDelete, List.filter, hbne, List.lookup, hbeq]
      simpa [storeDelete, List.filter] using ih

/-- C4 (code bug evidence): on empty or blank code, `POST /submit-code`
answers with the generic server-error status 500 — its blanket
`except Exception` swallows the deliberately raised 400 — while
`POST /generate` answers 400 as intended; in both cases the handler
fails before touching the session store, whose update is only ever
returned on success. -/
theorem blank_code_rejection :
    submit_code [] "sid" ""
      = .error ⟨500, "Error submitting code: 400: Code cannot be empty"⟩ ∧
    submit_code [("s1", ⟨"x", "auto"⟩)] "sid" "   "
      = .error ⟨500, "Error submitting code: 400: Code cannot be empty"⟩ ∧
    (∀ analyze llm g,
      generate_flowchart analyze llm g "" "auto"
        = .error ⟨400, "Code cannot be empty"⟩) ∧
    (∀ analyze llm g,
      generate_flowchart analyze llm g "   " "python"
        = .error ⟨400, "Code cannot be empty"⟩) := by
  refine ⟨rfl, rfl, ?_, ?_⟩
  · intro analyze llm g
    rfl
  · intro analyze llm g
    rfl

/-- C5: the session store contract.  Create stores the submitted code
with language `auto` and a subsequent read returns them; set-language
with a language in the allowed set overwrites it so a later read
reflects it, and with any other language fails with 400; read,
set-language and delete on an absent identifier fail with 404; after a
delete, a read of that identifier fails with 404. -/
theorem session_store_contract (store : Store) (sid fresh code lang : String)
    (data : SessionData) :
    (pyStrip code ≠ "" →
      submit_code store fresh code
        = .ok ({ success := true, session_id := fresh,
                 message := "Code submitted successfully",
                 code_length := code.length,
                 lines := (pySplitlines code).length },
               storeSet store fresh ⟨code, "auto"⟩) ∧
      read_session (storeSet store fresh ⟨code, "auto"⟩) fresh
        = .ok ⟨code, "auto"⟩) ∧
    (List.lookup sid store = some data → lang ∈ valid_languages →
      set_language store sid lang
        = .ok ({ success := true, session_id := sid, language := lang,
                 message := "Language set successfully" },
               storeSet store sid { data with language := lang }) ∧
      read_session (storeSet store sid { data with language := lang }) sid
        = .ok { data with language := lang }) ∧
    (List.lookup sid store = some data → lang ∉ valid_languages →
      set_language store sid lang
        = .error ⟨400, "Invalid language. Choose from: auto, python, javascript, c"⟩) ∧
    (List.lookup sid store = none →
      read_session store sid = .error ⟨404, "Session not found"⟩ ∧
      set_language store sid lang = .error ⟨404, "Session not found"⟩ ∧
      delete_session store sid = .error ⟨404, "Session not found"⟩) ∧
    (List.lookup sid store = some data →
      delete_session store sid
        = .ok ({ success := true, message := "Session deleted successfully" },
               storeDelete store sid) ∧
      read_session (storeDelete store sid) sid
        = .error ⟨404, "Session not found"⟩) := by
  refine ⟨?_, ?_, ?_, ?_, ?_⟩
  · intro hcode
    have hne : ¬ (code = "" ∨ pyStrip code = "") := by
      rintro (rfl | hc)
      · exact hcode rfl
      · exact hcode hc
    constructor
    · simp only [submit_code, if_neg hne]
    · simp [read_session, lookup_storeSet_self]
  · intro hsid hmem
    simp only [set_language, hsid]
    rw [if_neg (not_not_intro hmem)]
    exact ⟨rfl, by simp [read_session, lookup_storeSet_self]⟩
  · intro hsid hmem
    simp only [set_language, hsid]
    rw [if_pos hmem]
  · intro hsid
    refine ⟨?_, ?_, ?_⟩
    · simp only [read_session, hsid]
    · simp only [set_language, hsid]
    · simp only [delete_session, hsid]
  · intro hsid
    refine ⟨?_, ?_⟩
    · simp only [delete_session, hsid]
    · simp [read_session, lookup_storeDelete_self]

/-- Witness for C5: the full lifecycle at concrete values. -/
theorem session_store_contract_witness :
    (pyStrip "x = 1" ≠ "" ∧
      submit_code [("s1", ⟨"print(1)", "auto"⟩)] "s2" "x = 1"
        = .ok ({ success := true, session_id := "s2",
                 message := "Code submitted successfully",
                 code_length := 5, lines := 1 },
               storeSet [("s1", ⟨"print(1)", "auto"⟩)] "s2" ⟨"x = 1", "auto"⟩) ∧
      read_session (storeSet [("s1", ⟨"print(1)", "auto"⟩)] "s2" ⟨"x = 1", "auto"⟩)
          "s2" = .ok ⟨"x = 1", "auto"⟩) ∧
    (set_language [("s1", ⟨"print(1)", "auto"⟩)] "s1" "python"
        = .ok ({ success := true, session_id := "s1", language := "python",
                 message := "Language set successfully" },
               storeSet [("s1", ⟨"print(1)", "auto"⟩)] "s1" ⟨"print(1)", "python"⟩) ∧
      read_session
          (storeSet [("s1", ⟨"print(1)", "auto"⟩)] "s1" ⟨"print(1)", "python"⟩)
          "s1" = .ok ⟨"print(1)", "python"⟩) ∧
    set_language [("s1", ⟨"print(1)", "auto"⟩)] "s1" "ruby"
      = .error ⟨400, "Invalid language. Choose from: auto, python, javascript, c"⟩ ∧
    (read_session [("s1", ⟨"print(1)", "auto"⟩)] "zz"
        = .error ⟨404, "Session not found"⟩ ∧
      set_language [("s1", ⟨"print(1)", "auto"⟩)] "zz" "python"
        = .error ⟨404, "Session not found"⟩ ∧
      delete_session [("s1", ⟨"print(1)", "auto"⟩)] "zz"
        = .error ⟨404, "Session not found"⟩) ∧
    (delete_session [("s1", ⟨"print(1)", "auto"⟩)] "s1"
        = .ok ({ success := true, message := "Session deleted successfully" },
               storeDelete [("s1", ⟨"print(1)", "auto"⟩)] "s1") ∧
      read_session (storeDelete [("s1", ⟨"print(1)", "auto"⟩)] "s1") "s1"
        = .error ⟨404, "Session not found"⟩) := by
  refine ⟨⟨by decide, ?_, ?_⟩, ⟨?_, ?_⟩, ?_, ?_, ?_⟩
  · exact ((session_store_contract [("s1", ⟨"print(1)", "auto"⟩)] "s1" "s2"
      "x = 1" "python" ⟨"print(1)", "auto"⟩).1 (by decide)).1
  · exact ((session_store_contract [("s1", ⟨"print(1)", "auto"⟩)] "s1" "s2"
      "x = 1" "python" ⟨"print(1)", "auto"⟩).1 (by decide)).2
  · exact ((session_store_contract [("s1", ⟨"print(1)", "auto"⟩)] "s1" "s2"
      "x = 1" "python" ⟨"print(1)", "auto"⟩).2.1 (by decide) (by decide)).1
  · exact ((session_store_contract [("s1", ⟨"print(1)", "auto"⟩)] "s1" "s2"
      "x = 1" "python" ⟨"print(1)", "auto"⟩).2.1 (by decide) (by decide)).2
  · exact (session_store_contract [("s1", ⟨"print(1)", "auto"⟩)] "s1" "s2"
      "x = 1" "ruby" ⟨"print(1)", "auto"⟩).2.2.1 (by decide) (by decide)
  · exact (session_store_contract [("s1", ⟨"print(1)", "auto"⟩)] "zz" "s2"
      "x = 1" "python" ⟨"print(1)", "auto"⟩).2.2.2.1 (by decide)
  · exact (session_store_contract [("s1", ⟨"print(1)", "auto"⟩)] "s1" "s2"
      "x = 1" "python" ⟨"print(1)", "auto"⟩).2.2.2.2 (by decide)

/-- C9: on any input whose analysis reports more than 500 lines but
yields no extracted functions and no top-level snippets, the chunk
planner returns an empty sequence and the orchestration then fails by
indexing the empty fragment list (`chunk_flowcharts[0]`), aborting the
run with an `IndexError` instead of returning a no-diagram result. -/
theorem pipeline_empty_chunks (analyze : String → String → StructureReport)
    (llm : Nat → Except String String) (g : Globals)
    (code language : String) (st : StructureReport)
    (hst : analyze code
      (if language ≠ "auto" then language else detect_language code) = st)
    (hlines : 500 < st.total_lines)
    (hfun : st.functions = []) (hmain : st.main_code = []) :
    create_chunks st code = [] ∧
    process_code_internal analyze llm g code language
      = .error .indexError := by
  have hchunks : create_chunks st code = [] := by
    rw [create_chunks, if_neg (by omega)]
    simp [hfun, hmain]
  refine ⟨hchunks, ?_⟩
  simp only [process_code_internal, hst, hchunks]
  rfl

/-- Witness for C9: a 501-line report with no functions and no top-level
snippets. -/
theorem pipeline_empty_chunks_witness :
    (analyzeStub501 "x"
        (if "python" ≠ "auto" then "python" else detect_language "x")
      = ⟨[], [], 501, 0⟩) ∧
    500 < (501 : Nat) ∧
    create_chunks ⟨[], [], 501, 0⟩ "x" = [] ∧
    process_code_internal analyzeStub501 (fun _ => .ok "graph TD")
        initialGlobals "x" "python" = .error .indexError := by
  refine ⟨rfl, by decide, ?_, ?_⟩
  · exact (pipeline_empty_chunks analyzeStub501 (fun _ => .ok "graph TD")
      initialGlobals "x" "python" ⟨[], [], 501, 0⟩ rfl (by decide) rfl rfl).1
  · exact (pipeline_empty_chunks analyzeStub501 (fun _ => .ok "graph TD")
      initialGlobals "x" "python" ⟨[], [], 501, 0⟩ rfl (by decide) rfl rfl).2

/-- The mermaid.ink URL is never the empty string. -/
theorem mermaid_svg_url_ne_empty (m : String) : mermaid_svg_url m ≠ "" := by
  intro h
  have hlen := congrArg String.length h
  rw [mermaid_svg_url, String.length_append] at hlen
  have h24 : ("https://mermaid.ink/svg/" : String).length = 24 := by decide
  have h0 : ("" : String).length = 0 := by decide
  omega

/-- A successful processing run stores its diagram source and URL in the
module globals, and the URL is non-empty. -/
theorem process_code_internal_globals
    (analyze : String → String → StructureReport)
    (llm : Nat → Except String String) (g : Globals)
    (code language : String) (r : ProcessResult) (g' : Globals)
    (h : process_code_internal analyze llm g code language = .ok (r, g')) :
    g'.current_svg_url = r.svg_url ∧
    g'.current_mermaid_code = r.mermaid_code ∧
    r.svg_url ≠ "" ∧
    get_current g' = .ok ⟨r.svg_url, r.mermaid_code⟩ := by
  simp only [process_code_internal] at h
  split at h
  · exact absurd h (by simp)
  · rename_i final_mermaid heq
    rw [Except.ok.injEq, Prod.mk.injEq] at h
    obtain ⟨hr, hg⟩ := h
    subst hr
    subst hg
    refine ⟨rfl, rfl, mermaid_svg_url_ne_empty final_mermaid, ?_⟩
    simp only [get_current]
    rw [if_neg (mermaid_svg_url_ne_empty final_mermaid)]

/-- C10: `GET /current` fails with 404 at process start, when no
generation has completed; after any successful generation — through the
internal processing routine, the per-session endpoint, or the direct
endpoint — it returns the diagram source and URL of that most recent
successful run.  It reads a single process-wide mutable pair, shared
across all sessions: it takes no session identifier at all. -/
theorem get_current_behavior :
    get_current initialGlobals = .error ⟨404, "No flowchart generated yet"⟩ ∧
    (∀ (analyze : String → String → StructureReport)
        (llm : Nat → Except String String) (g : Globals)
        (code language : String) (r : ProcessResult) (g' : Globals),
      process_code_internal analyze llm g code language = .ok (r, g') →
        g'.current_svg_url = r.svg_url ∧
        g'.current_mermaid_code = r.mermaid_code ∧
        r.svg_url ≠ "" ∧
        get_current g' = .ok ⟨r.svg_url, r.mermaid_code⟩) ∧
    (∀ (analyze : String → String → StructureReport)
        (llm : Nat → Except String String) (store : Store) (g : Globals)
        (sid : String) (resp : FlowchartResponse) (g' : Globals),
      generate_flowchart_by_session analyze llm store g sid = .ok (resp, g') →
        get_current g' = .ok ⟨resp.svg_url, resp.mermaid_code⟩) ∧
    (∀ (analyze : String → String → StructureReport)
        (llm : Nat → Except String String) (g : Globals)
        (code language : String) (resp : FlowchartResponse) (g' : Globals),
      generate_flowchart analyze llm g code language = .ok (resp, g') →
        get_current g' = .ok ⟨resp.svg_url, resp.mermaid_code⟩) := by
  refine ⟨rfl, process_code_internal_globals, ?_, ?_⟩
  · intro analyze llm store g sid resp g' h
    simp only [generate_flowchart_by_session] at h
    split at h
    · exact absurd h (by simp)
    · rename_i data _
      split at h
      · exact absurd h (by simp)
      · rename_i r g'' heq
        rw [Except.ok.injEq, Prod.mk.injEq] at h
        obtain ⟨hr, hg⟩ := h
        subst hr
        subst hg
        have := process_code_internal_globals analyze llm g data.code
          data.language r g'' heq
        simpa using this.2.2.2
  · intro analyze llm g code language resp g' h
    simp only [generate_flowchart] at h
    split at h
    · rename_i p hbody
      rw [Except.ok.injEq] at h
      subst h
      split at hbody
      · exact absurd hbody (by simp)
      · split at hbody
        · exact absurd hbody (by simp)
        · rename_i r g'' heq
          rw [Except.ok.injEq, Prod.mk.injEq] at hbody
          obtain ⟨hr, hg⟩ := hbody
          subst hr
          subst hg
          have hglob := process_code_internal_globals analyze llm g code
            language r g'' heq
          simpa using hglob.2.2.2
    · exact absurd h (by simp)
    · exact absurd h (by simp)

/-- Witness for C10: a concrete successful run through the internal
routine, the per-session endpoint and the direct endpoint, each leaving
`GET /current` returning that run's diagram source and URL. -/
theorem get_current_behavior_witness :
    process_code_internal demoAnalyze demoLlm initialGlobals "x = 1" "auto"
      = .ok ({ mermaid_code := "graph TD",
               svg_url := "https://mermaid.ink/svg/Z3JhcGggVEQ=",
               analysis := ⟨0, 0, 1, 1, "python"⟩ },
             ⟨"https://mermaid.ink/svg/Z3JhcGggVEQ=", "graph TD"⟩) ∧
    get_current ⟨"https://mermaid.ink/svg/Z3JhcGggVEQ=", "graph TD"⟩
      = .ok ⟨"https://mermaid.ink/svg/Z3JhcGggVEQ=", "graph TD"⟩ ∧
    generate_flowchart_by_session demoAnalyze demoLlm
        [("s1", ⟨"x = 1", "auto"⟩)] initialGlobals "s1"
      = .ok ({ mermaid_code := "graph TD",
               svg_url := "https://mermaid.ink/svg/Z3JhcGggVEQ=",
               analysis := ⟨0, 0, 1, 1, "python"⟩, session_id := "s1" },
             ⟨"https://mermaid.ink/svg/Z3JhcGggVEQ=", "graph TD"⟩) ∧
    generate_flowchart demoAnalyze demoLlm initialGlobals "x = 1" "auto"
      = .ok ({ mermaid_code := "graph TD",
               svg_url := "https://mermaid.ink/svg/Z3JhcGggVEQ=",
               analysis := ⟨0, 0, 1, 1, "python"⟩, session_id := "direct" },
             ⟨"https://mermaid.ink/svg/Z3JhcGggVEQ=", "graph TD"⟩) :=
  ⟨by decide,
   (get_current_behavior.2.1 demoAnalyze demoLlm initialGlobals "x = 1" "auto"
      { mermaid_code := "graph TD",
        svg_url := "https://mermaid.ink/svg/Z3JhcGggVEQ=",
        analysis := ⟨0, 0, 1, 1, "python"⟩ }
      ⟨"https://mermaid.ink/svg/Z3JhcGggVEQ=", "graph TD"⟩ (by decide)).2.2.2,
   by decide,
   by decide⟩
